import Mathlib

/-!
Shallow embedding of the `ddccid` brightness daemon (Rust) in Lean 4.

The repository has three brightness-manager variants and one protocol
handler:

* `src/ddchi.rs` — `DdcHiBackend`: a cached manager with two cooldown
  timers (`last_get`, `last_set`) and a cached value (`temp`); reads and
  writes go through the `ddc-hi` library.
* `src/ddcutil.rs` — `DdcutilBackend`: an uncached manager whose
  multi-display write loop propagates the first failure with `?`.
* `src/main.rs` — a private `BrightnessManager` used by the daemon: no
  cache, threaded best-effort write fan-out, plus `handle_client`, the
  line-oriented protocol handler.

Modelling conventions:

* `u16` values are `Nat` (with explicit saturation at 65535 where the
  source uses `saturating_add`); `i16` values are `Int` in
  `[-32768, 32767]`.
* `Instant` timestamps and `Duration`s are `Nat` milliseconds;
  `t.elapsed() < D` at current time `now` becomes `now - t < D`
  (truncated subtraction; `Instant` is monotone so `now ≥ t` holds in
  the source).
* A hardware read of display 0 is a parameter `hwRead : Option Nat`
  (`none` = the DDC transaction failed). Hardware writes are recorded in
  a returned trace `List (Nat × Nat)` of `(displayIndex, value)` pairs
  of the write transactions the call issues; a parameter
  `fl : Nat → Bool` says which display's write transaction fails.
* Rust `Result` becomes `Option` (`none` = `Err`).
-/

/-- `COOLDOWN` from `ddchi.rs` line 19: 200 ms. The write cooldown used in
`set_brightness` is `COOLDOWN * 2` = 400 ms. -/
def COOLDOWN : Nat := 200

/-- Rust `u16::saturating_sub` with `u16` modelled as `Nat`: truncated
subtraction already saturates at 0. -/
def satSubU16 (a b : Nat) : Nat := a - b

/-- Rust `u16::saturating_add` with `u16` modelled as `Nat`: saturates at
`u16::MAX` = 65535. -/
def satAddU16 (a b : Nat) : Nat := min (a + b) 65535

/-- Rust `step as i16` for a `u16` value `n` (two's-complement reinterpretation):
values below 32768 are unchanged, others wrap to negatives. -/
def i16ofU16 (n : Nat) : Int := if n < 32768 then (n : Int) else (n : Int) - 65536

/-- Rust `x as u16` for an `i16` value `x` (two's-complement reinterpretation):
reduction mod 2^16. -/
def u16ofI16 (x : Int) : Nat := (x % 65536).toNat

/-- Rust release-profile negation of an `i16` in `[-32768, 32767]`: wrapping
two's-complement negation. The single input where `-x` overflows the `i16`
range is `x = -32768`, which wraps to itself (a debug build panics there
instead). -/
def wrapNegI16 (x : Int) : Int := if x = -32768 then -32768 else -x

/-- `true` iff negating the `i16` value `x` overflows the `i16` range
(exactly at `i16::MIN = -32768`). -/
def i16NegOverflows (x : Int) : Bool := x == -32768

/-- Cached state of `DdcHiBackend` (`ddchi.rs` lines 12-17): the last real
write instant (`last_set`), the last real read instant (`last_get`) and the
cached brightness (`temp`). The display list is passed separately as a
display count. -/
structure DdcHiState where
  last_set : Nat
  last_get : Nat
  temp : Nat
  deriving DecidableEq, Repr

/-- `DdcHiBackend::get_brightness` (`ddchi.rs` lines 46-60). If the read
cooldown is active, returns the cached `temp` without touching hardware;
otherwise performs one `get_vcp_feature(0x10)` read on `displays[0]`
(modelled by `hwRead`), propagates its failure, and on success updates
`last_get` and `temp`. The third component of the result counts the hardware
read transactions the call performed (0 or 1). -/
def DdcHiBackend.get_brightness (now : Nat) (hwRead : Option Nat)
    (s : DdcHiState) : Option (Nat × DdcHiState × Nat) :=
  if now - s.last_get < COOLDOWN then
    some (s.temp, s, 0)
  else
    match hwRead with
    | none => none
    | some brightness =>
      some (brightness, { s with last_get := now, temp := brightness }, 1)

/-- `DdcHiBackend::set_brightness` (`ddchi.rs` lines 62-82). If the write
cooldown (`COOLDOWN * 2`) is active, returns the cached `temp` and leaves the
state untouched, issuing no hardware write. Otherwise clamps the value with
`min(100, value)`, spawns one write per display (every display gets its
write; each thread's result is discarded with `let _ = ...`, so the outcome
function `_fl` is never consulted — hence the unused binder), then updates
`last_set` and `temp` and returns the clamped value. The returned list is
the trace of `(displayIndex, value)` write transactions issued. -/
def DdcHiBackend.set_brightness (now nDisplays value : Nat)
    ( _fl : Nat → Bool) (s : DdcHiState) : Nat × DdcHiState × List (Nat × Nat) :=
  if now - s.last_set < COOLDOWN * 2 then
    (s.temp, s, [])
  else
    let clamped_value := min 100 value
    (clamped_value,
     { s with last_set := now, temp := clamped_value },
     (List.range nDisplays).map fun i => (i, clamped_value))

/-- `DdcutilBackend::get_brightness` (`ddcutil.rs` lines 22-25): one
`vcp_get_value(0x10)` on `displays[0]`, returned unmodified (no cache, no
clamp). -/
def DdcutilBackend.get_brightness (hwRead : Option Nat) : Option Nat := hwRead

/-- The write loop of `DdcutilBackend::set_brightness` (`ddcutil.rs` lines
29-31): `for display in &self.displays { display.vcp_set_raw(0x10, v)?; }`.
Walks the display indices in order; a failing display's write is attempted
(recorded in the trace) but the `?` aborts the loop there, so later displays
are never written. Returns the trace of attempted writes and whether the
loop completed. -/
def DdcutilBackend.setWrites ( fl : Nat → Bool) (clamped : Nat) :
    List Nat → List (Nat × Nat) × Bool
  | [] => ([], true)
  | i :: rest =>
    if fl i then ([(i, clamped)], false)
    else
      ((i, clamped) :: (DdcutilBackend.setWrites fl clamped rest).1,
       (DdcutilBackend.setWrites fl clamped rest).2)

/-- `DdcutilBackend::set_brightness` (`ddcutil.rs` lines 27-33): clamps with
`min(100, value)`, writes each display in order, propagating the first
failure (`?`), and returns the clamped value on success. -/
def DdcutilBackend.set_brightness (nDisplays value : Nat)
    ( fl : Nat → Bool) : Option Nat × List (Nat × Nat) :=
  let clamped_value := min 100 value
  let r := DdcutilBackend.setWrites fl clamped_value (List.range nDisplays)
  (if r.2 then some clamped_value else none, r.1)

/-- `DdcutilBackend::adjust_brightness` (`ddcutil.rs` lines 35-43): reads the
current value, then for a negative step computes
`current.saturating_sub((-step) as u16)` (the negation is the wrapping
release-profile one) and for a nonnegative step
`current.saturating_add(step as u16)`, and delegates to `set_brightness`. -/
def DdcutilBackend.adjust_brightness (hwRead : Option Nat) (nDisplays : Nat)
    (step : Int) ( fl : Nat → Bool) : Option Nat × List (Nat × Nat) :=
  match DdcutilBackend.get_brightness hwRead with
  | none => (none, [])
  | some current =>
    let new_value :=
      if step < 0 then satSubU16 current (u16ofI16 (wrapNegI16 step))
      else satAddU16 current (u16ofI16 step)
    DdcutilBackend.set_brightness nDisplays new_value fl

/-- `BrightnessManager::get_brightness` in `main.rs` (lines 61-64): a single
uncached hardware read of display 0 (`vcp_get_value(10)`), its failure
propagated with `?` and its value returned unmodified. -/
def Main.get_brightness (hwRead : Option Nat) : Option Nat := hwRead

/-- `BrightnessManager::set_brightness` in `main.rs` (lines 77-89): clamps
with `min(100, value)`, spawns one write (`vcp_set_raw(10, clamped)`) per
display inside `thread::scope` — every display gets its write and each
thread's `Result` is discarded, so the outcome function `_fl` is never
consulted — and returns the clamped value unconditionally. -/
def Main.set_brightness (nDisplays value : Nat) ( _fl : Nat → Bool) :
    Nat × List (Nat × Nat) :=
  let clamped_value := min 100 value
  (clamped_value, (List.range nDisplays).map fun i => (i, clamped_value))

/-- `BrightnessManager::adjust_brightness` in `main.rs` (lines 66-75): same
saturating arithmetic as the ddcutil variant, delegating to the threaded
`set_brightness`. -/
def Main.adjust_brightness (hwRead : Option Nat) (nDisplays : Nat)
    (delta : Int) ( fl : Nat → Bool) : Option (Nat × List (Nat × Nat)) :=
  match Main.get_brightness hwRead with
  | none => none
  | some current =>
    let new_value :=
      if delta < 0 then satSubU16 current (u16ofI16 (wrapNegI16 delta))
      else satAddU16 current (u16ofI16 delta)
    some (Main.set_brightness nDisplays new_value fl)

/-- Rust `str::trim`: remove leading and trailing whitespace characters.
Request lines are modelled as their character lists (`String.data`). -/
def trimChars (l : List Char) : List Char :=
  ((l.dropWhile Char.isWhitespace).reverse.dropWhile Char.isWhitespace).reverse

/-- Recursion core of `beginsWith`, structural on the pattern list (first
argument) so that it computes whenever the pattern is concrete. -/
def beginsWithGo : List Char → List Char → Bool
  | [], _ => true
  | p :: ps, s =>
    match s with
    | [] => false
    | c :: cs => c == p && beginsWithGo ps cs

/-- Rust `str::starts_with(p)` on character lists: `beginsWith s p` is
`true` iff `p` is an initial segment of `s`. -/
def beginsWith (s p : List Char) : Bool := beginsWithGo p s

/-- Rust `str::parse::<u16>()` on the argument slice: an optional leading
`+` sign followed by at least one ASCII digit, with value at most
`u16::MAX` = 65535; everything else is a parse error (`none`). -/
def parseU16 (s : List Char) : Option Nat :=
  let t := match s with
    | '+' :: rest => rest
    | _ => s
  if t.length > 0 && t.all (fun c => c.isDigit) then
    let n := t.foldl (fun acc c => acc * 10 + (c.toNat - 48)) 0
    if n ≤ 65535 then some n else none
  else none

/-- The command a trimmed request line denotes, mirroring the match arms of
`handle_client` (`main.rs` lines 99-149) in order. -/
inductive Command where
  | get
  | up (step : Nat)
  | down (step : Nat)
  | set (value : Nat)
  | stop
  | unknown
  deriving DecidableEq, Repr

/-- The parsing side of `handle_client` (`main.rs` lines 98-149): trim the
line, then try the match arms in source order. `up `/`down `/`set ` require
the trailing space (`starts_with`); the rest of the line parses with
`parse::<u16>().unwrap_or(default)` — default 5 for `up`/`down`, 50 for
`set`. (`strip_prefix(..).unwrap_or(..)` cannot fire under the
`starts_with` guard, so dropping the matched prefix is exact.) A line
matching no arm is the wildcard arm. -/
def parseTrimmed (command : List Char) : Command :=
  if command = "get".data then Command.get
  else if beginsWith command "up ".data then
    Command.up ((parseU16 (command.drop 3)).getD 5)
  else if beginsWith command "down ".data then
    Command.down ((parseU16 (command.drop 5)).getD 5)
  else if beginsWith command "set ".data then
    Command.set ((parseU16 (command.drop 4)).getD 50)
  else if command = "stop".data then Command.stop
  else Command.unknown

/-- `parseCommand` applies the match arms of `parseTrimmed` to the trimmed
request line (`let command = line.trim()` in `main.rs` line 98). -/
def parseCommand (line : String) : Command :=
  parseTrimmed (trimChars line.data)

/-- The one-line response `handle_client` writes, by shape:
`jsonBrightness v` is the waybar JSON object whose `text` is `"v"`,
`percentage` is `v` and `tooltip` is `"Brightness: v%"`; `jsonError` is the
error JSON with `text` `"?"` and `percentage` 0; `okText v` is the plain
line `OK v`; `hwError` is `ERROR <error message>`; `stopping` is
`OK stopping`; `unknown` is `ERROR unknown command`. -/
inductive Response where
  | jsonBrightness (v : Nat)
  | jsonError
  | okText (v : Nat)
  | hwError
  | stopping
  | unknown
  deriving DecidableEq, Repr

/-- The action side of `handle_client` (`main.rs` lines 99-149): dispatch a
parsed command against the shared `main.rs` manager. `get` renders JSON (the
error JSON on a failed read); `up <n>` calls `adjust_brightness(step as i16)`
and `down <n>` calls `adjust_brightness(-(step as i16))` (wrapping negation
of the reinterpreted step), both answering `OK <new>` or `ERROR <e>`;
`set <v>` calls `set_brightness(value)`, whose `main.rs` implementation
always succeeds, answering `OK <clamped>`; `stop` acknowledges and exits;
anything else is `ERROR unknown command`. -/
def execCommand (cmd : Command) (hwRead : Option Nat) (nDisplays : Nat)
    ( fl : Nat → Bool) : Response :=
  match cmd with
  | Command.get =>
    match Main.get_brightness hwRead with
    | some brightness => Response.jsonBrightness brightness
    | none => Response.jsonError
  | Command.up step =>
    match Main.adjust_brightness hwRead nDisplays (i16ofU16 step) fl with
    | some (newBrightness, _) => Response.okText newBrightness
    | none => Response.hwError
  | Command.down step =>
    match Main.adjust_brightness hwRead nDisplays
        (wrapNegI16 (i16ofU16 step)) fl with
    | some (newBrightness, _) => Response.okText newBrightness
    | none => Response.hwError
  | Command.set value =>
    Response.okText (Main.set_brightness nDisplays value fl).1
  | Command.stop => Response.stopping
  | Command.unknown => Response.unknown

/-- `handle_client` (`main.rs` lines 92-153) as parse-then-act on the single
request line. -/
def handle_client (line : String) (hwRead : Option Nat) (nDisplays : Nat)
    ( fl : Nat → Bool) : Response :=
  execCommand (parseCommand line) hwRead nDisplays fl

/-- A hardware-outcome function under which no display's write fails. -/
def noFail : Nat → Bool := fun _ => false

/-- A hardware-outcome function under which exactly display 0's write
fails. -/
def failAt0 : Nat → Bool := fun i => i == 0

/-! ### Helper lemmas -/

/-- Every write the ddcutil loop attempts carries the clamped value. -/
lemma DdcutilBackend.setWrites_snd ( fl : Nat → Bool) (clamped : Nat)
    (l : List Nat) :
    ∀ w ∈ (DdcutilBackend.setWrites fl clamped l).1, w.2 = clamped := by
  induction l with
  | nil => simp [DdcutilBackend.setWrites]
  | cons i rest ih =>
    intro w hw
    simp only [DdcutilBackend.setWrites] at hw
    by_cases hi : fl i
    · rw [if_pos hi] at hw
      simp at hw
      simp [hw]
    · rw [if_neg hi] at hw
      rcases List.mem_cons.mp hw with h | h
      · simp [h]
      · exact ih w h

/-! ### C1 -/

/-- Claim C1 counterexample: with cached value 50 and the write cooldown
active (`1100 - 1000 = 100 < 400`), `DdcHiBackend::set_brightness 30`
performs no hardware write but returns the cached 50, which is not the
requested clamped value `min 30 100 = 30` — the code echoes the cache, not
the request. -/
theorem ddchi_set_cooldown_not_optimistic_echo :
    DdcHiBackend.set_brightness 1100 2 30 noFail ⟨1000, 1000, 50⟩ =
      (50, ⟨1000, 1000, 50⟩, []) ∧ (50 : Nat) ≠ min 30 100 := by decide

/-- Claim C1 (amended): every `DdcHiBackend::set_brightness` call made while
the write cooldown is active performs no hardware transaction (empty write
trace) and returns the previously cached brightness value `temp` — not the
requested clamped value. -/
theorem ddchi_set_cooldown_returns_cached
    (now nDisplays value : Nat) (fl : Nat → Bool) (s : DdcHiState)
    (h : now - s.last_set < COOLDOWN * 2) :
    DdcHiBackend.set_brightness now nDisplays value fl s = (s.temp, s, []) := by
  simp [DdcHiBackend.set_brightness, h]

/-- Witness for `ddchi_set_cooldown_returns_cached` at a concrete state. -/
theorem ddchi_set_cooldown_returns_cached_witness :
    DdcHiBackend.set_brightness 1100 2 30 noFail ⟨1000, 1000, 50⟩ =
      (50, ⟨1000, 1000, 50⟩, []) :=
  ddchi_set_cooldown_returns_cached 1100 2 30 noFail ⟨1000, 1000, 50⟩ (by decide)

/-! ### C10 -/

/-- Claim C10: a `DdcHiBackend::set_brightness` call suppressed by the write
cooldown leaves the whole cache state (cached value `temp`, `last_get`,
`last_set`) unchanged and issues no hardware write. -/
theorem ddchi_set_cooldown_state_unchanged
    (now nDisplays value : Nat) (fl : Nat → Bool) (s : DdcHiState)
    (h : now - s.last_set < COOLDOWN * 2) :
    (DdcHiBackend.set_brightness now nDisplays value fl s).2.1 = s ∧
    (DdcHiBackend.set_brightness now nDisplays value fl s).2.2 = [] := by
  simp [DdcHiBackend.set_brightness, h]

/-- Witness for `ddchi_set_cooldown_state_unchanged` at a concrete state. -/
theorem ddchi_set_cooldown_state_unchanged_witness :
    (DdcHiBackend.set_brightness 300 3 80 noFail ⟨100, 100, 42⟩).2.1 =
      ⟨100, 100, 42⟩ ∧
    (DdcHiBackend.set_brightness 300 3 80 noFail ⟨100, 100, 42⟩).2.2 = [] :=
  ddchi_set_cooldown_state_unchanged 300 3 80 noFail ⟨100, 100, 42⟩ (by decide)

/-! ### C3 -/

/-- Claim C3: (1) after any successful `DdcHiBackend::get_brightness` that
returned `v` and state `s₁`, a second call issued while the read cooldown is
still active returns the identical value `v`, leaves the state unchanged and
performs 0 hardware reads (independently of what the hardware would answer);
(2) when the cooldown has expired, `get_brightness` performs exactly one
real read against the first display, updates the cached value and the read
timestamp, and returns the fresh value. -/
theorem ddchi_get_cooldown_cache_and_refresh :
    (∀ (s s₁ : DdcHiState) (now₁ now₂ k v : Nat) (hw hw' : Option Nat),
      DdcHiBackend.get_brightness now₁ hw s = some (v, s₁, k) →
      now₂ - s₁.last_get < COOLDOWN →
      DdcHiBackend.get_brightness now₂ hw' s₁ = some (v, s₁, 0)) ∧
    (∀ (s : DdcHiState) (now b : Nat),
      ¬ (now - s.last_get < COOLDOWN) →
      DdcHiBackend.get_brightness now (some b) s =
        some (b, ⟨s.last_set, now, b⟩, 1)) := by
  constructor
  · intro s s₁ now₁ now₂ k v hw hw' h1 h2
    have htemp : s₁.temp = v := by
      unfold DdcHiBackend.get_brightness at h1
      split at h1
      · simp at h1
        rw [← h1.2.1, h1.1]
      · match hw with
        | none => simp at h1
        | some b =>
          simp at h1
          rw [← h1.2.1, h1.1]
    unfold DdcHiBackend.get_brightness
    rw [if_pos h2, htemp]
  · intro s now b h
    unfold DdcHiBackend.get_brightness
    rw [if_neg h]

/-- Witness for `ddchi_get_cooldown_cache_and_refresh`: a fresh read of 77
at time 500 (cooldown expired since `last_get = 0`), followed by a second
call at time 650 (cooldown active) that returns the identical 77 with 0
hardware reads even though the hardware would now fail. -/
theorem ddchi_get_cooldown_cache_and_refresh_witness :
    DdcHiBackend.get_brightness 650 none ⟨0, 500, 77⟩ =
      some (77, ⟨0, 500, 77⟩, 0) :=
  ddchi_get_cooldown_cache_and_refresh.1 ⟨0, 0, 10⟩ ⟨0, 500, 77⟩ 500 650 1 77
    (some 77) none
    (ddchi_get_cooldown_cache_and_refresh.2 ⟨0, 0, 10⟩ 500 77 (by decide))
    (by decide)

/-! ### C2 -/

/-- Claim C2 counterexample: with cached value 70 and the ddchi write
cooldown active (`100 - 0 = 100 < 400`), `set_brightness 20` returns 70,
not `min 20 100 = 20` — so "for every requested value v, set_brightness(v)
returns min(v, 100)" fails on the `DdcHiBackend`. -/
theorem set_clamp_fails_under_ddchi_cooldown :
    (DdcHiBackend.set_brightness 100 1 20 noFail ⟨0, 0, 70⟩).1 = 70 ∧
    (70 : Nat) ≠ min 20 100 := by decide

/-- Claim C2 (amended): `set_brightness v` returns `min v 100` — always for
the `main.rs` manager, on success for the ddcutil backend, and for the ddchi
backend whenever the write cooldown has expired (a cooldown-suppressed ddchi
call returns the cached value instead); and every hardware write any of the
three variants issues carries exactly `min v 100`. -/
theorem set_brightness_clamps_to_min_100 :
    (∀ (nDisplays value : Nat) (fl : Nat → Bool),
      (Main.set_brightness nDisplays value fl).1 = min value 100 ∧
      ∀ w ∈ (Main.set_brightness nDisplays value fl).2, w.2 = min value 100) ∧
    (∀ (nDisplays value c : Nat) (fl : Nat → Bool),
      (DdcutilBackend.set_brightness nDisplays value fl).1 = some c →
      c = min value 100) ∧
    (∀ (nDisplays value : Nat) (fl : Nat → Bool),
      ∀ w ∈ (DdcutilBackend.set_brightness nDisplays value fl).2,
        w.2 = min value 100) ∧
    (∀ (now nDisplays value : Nat) (fl : Nat → Bool) (s : DdcHiState),
      ¬ (now - s.last_set < COOLDOWN * 2) →
      (DdcHiBackend.set_brightness now nDisplays value fl s).1 = min value 100 ∧
      ∀ w ∈ (DdcHiBackend.set_brightness now nDisplays value fl s).2.2,
        w.2 = min value 100) := by
  refine ⟨?_, ?_, ?_, ?_⟩
  · intro nDisplays value fl
    constructor
    · simp [Main.set_brightness, Nat.min_comm]
    · intro w hw
      simp [Main.set_brightness, List.mem_map] at hw
      obtain ⟨i, _, hi⟩ := hw
      rw [← hi]
      exact Nat.min_comm 100 value
  · intro nDisplays value c fl h
    simp only [DdcutilBackend.set_brightness] at h
    split at h
    · injection h with h'
      rw [← h']
      exact Nat.min_comm 100 value
    · simp at h
  · intro nDisplays value fl w hw
    simp only [DdcutilBackend.set_brightness] at hw
    have := DdcutilBackend.setWrites_snd fl (min 100 value)
      (List.range nDisplays) w hw
    rw [this]
    exact Nat.min_comm 100 value
  · intro now nDisplays value fl s h
    constructor
    · simp [DdcHiBackend.set_brightness, h, Nat.min_comm]
    · intro w hw
      simp [DdcHiBackend.set_brightness, h, List.mem_map] at hw
      obtain ⟨i, _, hi⟩ := hw
      rw [← hi]
      exact Nat.min_comm 100 value

/-- Witness for `set_brightness_clamps_to_min_100`: the main-manager and
ddchi (cooldown expired, `400 - 0 ≥ 400`) variants both return
`min 150 100` for a request of 150. -/
theorem set_brightness_clamps_to_min_100_witness :
    (Main.set_brightness 2 150 noFail).1 = min 150 100 ∧
    (DdcHiBackend.set_brightness 400 1 150 noFail ⟨0, 0, 50⟩).1 = min 150 100 :=
  ⟨(set_brightness_clamps_to_min_100.1 2 150 noFail).1,
   (set_brightness_clamps_to_min_100.2.2.2 400 1 150 noFail ⟨0, 0, 50⟩
      (by decide)).1⟩

/-! ### C4 -/

/-- Claim C4 counterexample: with 2 displays and display 0's write failing,
`DdcutilBackend::set_brightness 30` aborts the fan-out at the `?`: display 1
never receives its write and the call returns an error, not success — so
"any individual display's write failure is suppressed" fails on the ddcutil
backend. -/
theorem ddcutil_set_failure_aborts_fanout :
    DdcutilBackend.set_brightness 2 30 failAt0 = (none, [(0, 30)]) ∧
    ((1 : Nat), (30 : Nat)) ∉ [((0 : Nat), (30 : Nat))] := by decide

/-- Claim C4 (amended): for the thread-scoped fan-outs — `DdcHiBackend` (when
the write cooldown has expired) and the `main.rs` manager — the outcome of
the per-display writes is never consulted (the result is identical under any
failure pattern), every enumerated display receives a write of the clamped
value, and the call returns the clamped value; the `DdcutilBackend` instead
propagates the first failing display's error and aborts its loop. -/
theorem threaded_set_fanout_best_effort :
    (∀ (now nDisplays value : Nat) (f g : Nat → Bool) (s : DdcHiState),
      DdcHiBackend.set_brightness now nDisplays value f s =
        DdcHiBackend.set_brightness now nDisplays value g s) ∧
    (∀ (now nDisplays value : Nat) (fl : Nat → Bool) (s : DdcHiState),
      ¬ (now - s.last_set < COOLDOWN * 2) →
      (DdcHiBackend.set_brightness now nDisplays value fl s).1 = min 100 value ∧
      ∀ i < nDisplays, (i, min 100 value) ∈
        (DdcHiBackend.set_brightness now nDisplays value fl s).2.2) ∧
    (∀ (nDisplays value : Nat) (f g : Nat → Bool),
      Main.set_brightness nDisplays value f = Main.set_brightness nDisplays value g) ∧
    (∀ (nDisplays value : Nat) (fl : Nat → Bool),
      (Main.set_brightness nDisplays value fl).1 = min 100 value ∧
      ∀ i < nDisplays, (i, min 100 value) ∈ (Main.set_brightness nDisplays value fl).2) := by
  refine ⟨fun _ _ _ _ _ _ => rfl, ?_, fun _ _ _ _ => rfl, ?_⟩
  · intro now nDisplays value fl s h
    refine ⟨by simp [DdcHiBackend.set_brightness, h], ?_⟩
    intro i hi
    simp [DdcHiBackend.set_brightness, h, List.mem_map, List.mem_range]
    omega
  · intro nDisplays value fl
    refine ⟨by simp [Main.set_brightness], ?_⟩
    intro i hi
    simp [Main.set_brightness, List.mem_map, List.mem_range]
    omega

/-- Witness for `threaded_set_fanout_best_effort`: with the ddchi cooldown
expired (`400 - 0 ≥ 400`) and 3 displays, display 1 receives the clamped
write `(1, min 100 120)`. -/
theorem threaded_set_fanout_best_effort_witness :
    ((1 : Nat), min 100 120) ∈
      (DdcHiBackend.set_brightness 400 3 120 noFail ⟨0, 0, 10⟩).2.2 :=
  (threaded_set_fanout_best_effort.2.1 400 3 120 noFail ⟨0, 0, 10⟩
    (by decide)).2 1 (by decide)

/-! ### C5 -/

/-- Claim C5: whatever the current hardware value and whatever the magnitude
or sign of the `i16` step (the embedding places no bound at all on the
`Int` step), a successful `adjust_brightness` reports a value that is at
most 100 — the value is a `Nat` (`u16`), so it cannot be below 0, the
subtraction saturates at 0, the addition saturates at 65535, and the
delegated `set_brightness` clamps to 100. Stated for both the `main.rs`
manager and the ddcutil backend. -/
theorem adjust_brightness_bounded_0_100 :
    ∀ (current : Nat) (delta : Int) (nDisplays : Nat) (fl : Nat → Bool)
      (r : Nat) (ws : List (Nat × Nat)),
      (Main.adjust_brightness (some current) nDisplays delta fl =
        some (r, ws) → r ≤ 100) ∧
      ((DdcutilBackend.adjust_brightness (some current) nDisplays delta fl).1 =
        some r → r ≤ 100) := by
  intro current delta nDisplays fl r ws
  constructor
  · intro h
    simp only [Main.adjust_brightness, Main.get_brightness,
      Main.set_brightness, Option.some.injEq, Prod.mk.injEq] at h
    rw [← h.1]
    exact min_le_left 100 _
  · intro h
    simp only [DdcutilBackend.adjust_brightness,
      DdcutilBackend.get_brightness] at h
    revert h
    generalize (if delta < 0 then satSubU16 current (u16ofI16 (wrapNegI16 delta))
      else satAddU16 current (u16ofI16 delta)) = nv
    intro h
    simp only [DdcutilBackend.set_brightness] at h
    split at h
    · injection h with h'
      rw [← h']
      exact min_le_left 100 nv
    · simp at h

/-- Witness for `adjust_brightness_bounded_0_100`: from current value 50,
the extreme step `i16::MIN = -32768` saturates down to a report of 0 and
the extreme step `i16::MAX = 32767` saturates and clamps up to a report of
100, both within `[0, 100]`. -/
theorem adjust_brightness_bounded_0_100_witness :
    (0 : Nat) ≤ 100 ∧ (100 : Nat) ≤ 100 :=
  ⟨(adjust_brightness_bounded_0_100 50 (-32768) 1 noFail 0 [(0, 0)]).1
      (by decide),
   (adjust_brightness_bounded_0_100 50 32767 1 noFail 100 [(0, 100)]).1
      (by decide)⟩

/-! ### C6 -/

/-- Claim C6 counterexample: with the read cooldown expired and the hardware
reporting 200, `DdcHiBackend::get_brightness` returns 200 and caches 200 —
the raw `u16` is passed through unclamped, so the result is not in `0..=100`;
likewise the ddcutil read returns the raw value. -/
theorem get_brightness_unclamped_hardware_read :
    DdcHiBackend.get_brightness 500 (some 200) ⟨0, 0, 50⟩ =
      some (200, ⟨0, 500, 200⟩, 1) ∧
    ¬ ((200 : Nat) ≤ 100) ∧
    DdcutilBackend.get_brightness (some 200) = some 200 := by decide

/-- Claim C6 (amended): `get_brightness` returns values in `0..=100` (and
the ddchi cache stays in `0..=100`) provided every hardware read reports a
value at most 100 — the code never clamps a read, so the bound is inherited
from the hardware, while `set_brightness` itself always keeps the cache at
most 100. -/
theorem brightness_bounded_if_hardware_bounded :
    (∀ (s s₁ : DdcHiState) (now k v : Nat) (hw : Option Nat),
      s.temp ≤ 100 → (∀ b, hw = some b → b ≤ 100) →
      DdcHiBackend.get_brightness now hw s = some (v, s₁, k) →
      v ≤ 100 ∧ s₁.temp ≤ 100) ∧
    (∀ (now nDisplays value : Nat) (fl : Nat → Bool) (s : DdcHiState),
      s.temp ≤ 100 →
      (DdcHiBackend.set_brightness now nDisplays value fl s).1 ≤ 100 ∧
      ((DdcHiBackend.set_brightness now nDisplays value fl s).2.1).temp ≤ 100) ∧
    (∀ b : Nat, b ≤ 100 → DdcutilBackend.get_brightness (some b) = some b) := by
  refine ⟨?_, ?_, fun _ _ => rfl⟩
  · intro s s₁ now k v hw htemp hhw h
    unfold DdcHiBackend.get_brightness at h
    split at h
    · simp at h
      rw [← h.1, ← h.2.1]
      exact ⟨htemp, htemp⟩
    · match hw with
      | none => simp at h
      | some b =>
        simp at h
        have hb := hhw b rfl
        rw [← h.1, ← h.2.1]
        exact ⟨hb, hb⟩
  · intro now nDisplays value fl s htemp
    unfold DdcHiBackend.set_brightness
    split
    · exact ⟨htemp, htemp⟩
    · exact ⟨min_le_left 100 value, min_le_left 100 value⟩

/-- Witness for `brightness_bounded_if_hardware_bounded`: a fresh read of 80
(hardware bounded by 100) yields a value and cache at most 100. -/
theorem brightness_bounded_if_hardware_bounded_witness :
    (80 : Nat) ≤ 100 ∧ (DdcHiState.mk 0 500 80).temp ≤ 100 :=
  brightness_bounded_if_hardware_bounded.1 ⟨0, 0, 50⟩ ⟨0, 500, 80⟩ 500 1 80
    (some 80) (by decide) (fun b hb => by injection hb with h; omega)
    (by decide)

/-! ### C7 -/

/-- Claim C7 counterexample: a successfully handled `set 30` request is
answered with the plain-text line `OK 30` (`Response.okText 30`), which is
not the JSON shape the `get` response for the same value would have
(`Response.jsonBrightness 30`) — `get` alone answers in the JSON shape. -/
theorem set_response_not_json_shape :
    handle_client "set 30\n" (some 50) 1 noFail = Response.okText 30 ∧
    Response.okText 30 ≠ Response.jsonBrightness 30 ∧
    handle_client "get\n" (some 50) 1 noFail = Response.jsonBrightness 50 := by
  decide

/-- Claim C7 (amended): only `get` answers in the waybar JSON shape; a
successfully handled `up <n>`, `down <n>` or `set <v>` request is answered
with the plain-text line `OK <new brightness>` (`Response.okText`) carrying
the new value — for `set <v>` exactly `OK (min 100 v)`. -/
theorem up_down_set_respond_ok_text :
    (∀ (value nDisplays : Nat) (fl : Nat → Bool) (hw : Option Nat),
      execCommand (Command.set value) hw nDisplays fl =
        Response.okText (min 100 value)) ∧
    (∀ (step nDisplays current : Nat) (fl : Nat → Bool),
      ∃ v, execCommand (Command.up step) (some current) nDisplays fl =
        Response.okText v) ∧
    (∀ (step nDisplays current : Nat) (fl : Nat → Bool),
      ∃ v, execCommand (Command.down step) (some current) nDisplays fl =
        Response.okText v) ∧
    (∀ (current nDisplays : Nat) (fl : Nat → Bool),
      execCommand Command.get (some current) nDisplays fl =
        Response.jsonBrightness current) := by
  refine ⟨fun _ _ _ _ => rfl, ?_, ?_, fun _ _ _ => rfl⟩
  · intro step nDisplays current fl
    exact ⟨_, rfl⟩
  · intro step nDisplays current fl
    exact ⟨_, rfl⟩

/-! ### C8 -/

/-- Claim C8 counterexample: the `up `/`down `/`set ` match guards require
the trailing space, so a request whose numeric argument is missing entirely
(`up`, `down`, `set` bare) matches no arm and is answered
`ERROR unknown command` instead of being executed with the default. -/
theorem bare_up_is_unknown_command :
    parseCommand "up" = Command.unknown ∧
    handle_client "up" (some 50) 1 noFail = Response.unknown ∧
    parseCommand "down" = Command.unknown ∧
    parseCommand "set" = Command.unknown := by decide

/-- Claim C8 (amended): when the command keyword and its trailing space are
present but the rest of the trimmed line fails `u16` parsing, the handler
still executes the command with the default argument — 5 for `up`/`down`,
50 for `set`; a bare `up`/`down`/`set` with the argument missing entirely
is answered `ERROR unknown command`. -/
theorem arg_defaults_and_bare_commands :
    (∀ rest : List Char, parseU16 rest = none →
      parseTrimmed ('u' :: 'p' :: ' ' :: rest) = Command.up 5) ∧
    (∀ rest : List Char, parseU16 rest = none →
      parseTrimmed ('d' :: 'o' :: 'w' :: 'n' :: ' ' :: rest) =
        Command.down 5) ∧
    (∀ rest : List Char, parseU16 rest = none →
      parseTrimmed ('s' :: 'e' :: 't' :: ' ' :: rest) = Command.set 50) ∧
    parseCommand "up" = Command.unknown ∧
    parseCommand "down" = Command.unknown ∧
    parseCommand "set" = Command.unknown := by
  refine ⟨?_, ?_, ?_, by decide, by decide, by decide⟩
  · intro rest hp
    rw [show parseTrimmed ('u' :: 'p' :: ' ' :: rest)
        = Command.up ((parseU16 rest).getD 5) from rfl, hp]
    rfl
  · intro rest hp
    rw [show parseTrimmed ('d' :: 'o' :: 'w' :: 'n' :: ' ' :: rest)
        = Command.down ((parseU16 rest).getD 5) from rfl, hp]
    rfl
  · intro rest hp
    rw [show parseTrimmed ('s' :: 'e' :: 't' :: ' ' :: rest)
        = Command.set ((parseU16 rest).getD 50) from rfl, hp]
    rfl

/-- Witness for `arg_defaults_and_bare_commands`: the unparseable argument
`abc` after `up ` defaults to step 5. -/
theorem arg_defaults_and_bare_commands_witness :
    parseTrimmed ('u' :: 'p' :: ' ' :: "abc".data) = Command.up 5 :=
  arg_defaults_and_bare_commands.1 "abc".data (by decide)

/-! ### C9 -/

/-- Claim C9 counterexample: the request `down 32768` parses its argument to
the `u16` 32768, whose `as i16` reinterpretation is `i16::MIN = -32768`,
and negating that value overflows the `i16` range (a debug build panics
at `-(step as i16)`; the release build wraps, so the handler ends up
saturating the brightness down to 0). -/
theorem down_32768_negation_overflow :
    parseCommand "down 32768" = Command.down 32768 ∧
    i16ofU16 32768 = -32768 ∧
    i16NegOverflows (i16ofU16 32768) = true ∧
    handle_client "down 32768" (some 50) 1 noFail = Response.okText 0 := by
  decide

/-- Claim C9 (amended): the negation in the `down` arm and in
`adjust_brightness` overflows exactly at `i16::MIN`: for every parsed `u16`
step other than 32768 the reinterpreted value negates without overflow
(and the wrapping negation agrees with true negation), and likewise for
every `i16` delta other than -32768; at step 32768 (`down 32768`) the
negation overflows. -/
theorem i16_negation_total_except_min :
    (∀ n : Nat, n < 65536 →
      (i16NegOverflows (i16ofU16 n) = true ↔ n = 32768)) ∧
    (∀ n : Nat, n < 65536 → n ≠ 32768 →
      -32768 ≤ -(i16ofU16 n) ∧ -(i16ofU16 n) ≤ 32767 ∧
      wrapNegI16 (i16ofU16 n) = -(i16ofU16 n)) ∧
    (∀ d : Int, -32768 ≤ d → d ≤ 32767 → d ≠ -32768 →
      -32768 ≤ -d ∧ -d ≤ 32767 ∧ wrapNegI16 d = -d) := by
  refine ⟨?_, ?_, ?_⟩
  · intro n hn
    unfold i16NegOverflows i16ofU16
    rw [beq_iff_eq]
    split <;> constructor <;> intro h <;> omega
  · intro n hn hne
    have hval : i16ofU16 n ≠ -32768 := by
      unfold i16ofU16
      split <;> omega
    refine ⟨?_, ?_, ?_⟩
    · unfold i16ofU16 at hval ⊢
      split at hval <;> split <;> omega
    · unfold i16ofU16 at hval ⊢
      split at hval <;> split <;> omega
    · unfold wrapNegI16
      rw [if_neg hval]
  · intro d h1 h2 hne
    refine ⟨by omega, by omega, ?_⟩
    unfold wrapNegI16
    rw [if_neg hne]

/-- Witness for `i16_negation_total_except_min`: the parsed step 5 negates
without overflow, and the wrapping negation agrees with true negation. -/
theorem i16_negation_total_except_min_witness :
    -32768 ≤ -(i16ofU16 5) ∧ -(i16ofU16 5) ≤ 32767 ∧
    wrapNegI16 (i16ofU16 5) = -(i16ofU16 5) :=
  i16_negation_total_except_min.2.1 5 (by decide) (by decide)
